import Mathlib

/-!
Shallow embedding of `arbitrage_bot.py` (polygon_arbitrage_bot).

Numeric values are modelled as rationals; on-chain integer amounts as
naturals.  The venue → price dictionary is modelled as an association
list whose order mirrors Python dict insertion order; `None` prices are
`Option.none`.  The nested index loops of `find_arbitrage` are mirrored
by `List.range` iteration with `getElem?` lookups.
-/

namespace PolygonArb

/-- `TOKEN0["decimals"]` (USDC). -/
def TOKEN0_decimals : ℕ := 6

/-- `TOKEN1["decimals"]` (WETH). -/
def TOKEN1_decimals : ℕ := 18

/-- `START_AMOUNT = 100 * (10 ** TOKEN0["decimals"])`. -/
def START_AMOUNT : ℚ := 100 * 10 ^ TOKEN0_decimals

/-- `FEE_RATE = 0.003`. -/
def FEE_RATE : ℚ := 3 / 1000

/-- `SLIPPAGE = 0.001`. -/
def SLIPPAGE : ℚ := 1 / 1000

/-- `MIN_PROFIT = 1`. -/
def MIN_PROFIT : ℚ := 1

/-- `fetch_prices`: from per-venue quote results (`None` = failed call,
`some n` = returned `amounts[-1] = n`) to venue → optional price.
`if out_weth:` is Python truthiness: both `None` and `0` take the
`else` branch that records `None`. -/
def fetch_prices (quotes : List (String × Option ℕ)) : List (String × Option ℚ) :=
  quotes.map fun q =>
    match q.2 with
    | some out_weth =>
        if out_weth = 0 then (q.1, none)
        else (q.1, some ((START_AMOUNT / (out_weth : ℚ)) * 10 ^ (TOKEN1_decimals - TOKEN0_decimals)))
    | none => (q.1, none)

/-- One record appended to `opps` by `find_arbitrage`. -/
structure Opp where
  timestamp : String
  buy_on : String
  sell_on : String
  buy_price : ℚ
  sell_price : ℚ
  profit : ℚ
  deriving DecidableEq, Repr

/-- The profit computation of `find_arbitrage` lines 139-149:
`amount_weth = (usdc_start * (1 - FEE_RATE)) / buy_price`,
`amount_weth *= (1 - SLIPPAGE)`,
`usdc_final = amount_weth * sell_price * (1 - FEE_RATE)`,
`usdc_final *= (1 - SLIPPAGE)`,
`profit = usdc_final - usdc_start`. -/
def rawProfit (startAmount feeRate slippageRate buy_price sell_price : ℚ) : ℚ :=
  let usdc_start := startAmount
  let amount_weth := ((usdc_start * (1 - feeRate)) / buy_price) * (1 - slippageRate)
  let usdc_final := (amount_weth * sell_price * (1 - feeRate)) * (1 - slippageRate)
  usdc_final - usdc_start

/-- Body of the doubly nested loop of `find_arbitrage` for one ordered
index pair `(i, j)`: skip on `i == j` or a missing price, gate on
`buy_price < sell_price`, compute the profit, and emit a record only if
`profit > minProfit`, storing `profit / (10 ** d0)`. -/
def pairOpp (startAmount feeRate slippageRate minProfit : ℚ) (d0 : ℕ) (ts : String)
    (prices : List (String × Option ℚ)) (i j : ℕ) : Option Opp :=
  if i = j then none else
  match prices[i]?, prices[j]? with
  | some (buy_dex, some buy_price), some (sell_dex, some sell_price) =>
      if buy_price < sell_price then
        let profit := rawProfit startAmount feeRate slippageRate buy_price sell_price
        if minProfit < profit then
          some { timestamp := ts, buy_on := buy_dex, sell_on := sell_dex,
                 buy_price := buy_price, sell_price := sell_price,
                 profit := profit / 10 ^ d0 }
        else none
      else none
  | _, _ => none

/-- `find_arbitrage`, parameterised over the module-level constants it
reads (`START_AMOUNT`, `FEE_RATE`, `SLIPPAGE`, `MIN_PROFIT`,
`TOKEN0["decimals"]`) and over the timestamp string; the two nested
`for i in range(len(dexes))` loops become iteration over
`List.range prices.length`. -/
def find_arbitrage_gen (startAmount feeRate slippageRate minProfit : ℚ) (d0 : ℕ)
    (ts : String) (prices : List (String × Option ℚ)) : List Opp :=
  (List.range prices.length).flatMap fun i =>
    (List.range prices.length).filterMap fun j =>
      pairOpp startAmount feeRate slippageRate minProfit d0 ts prices i j

/-- `find_arbitrage` with the constants of `arbitrage_bot.py`. -/
def find_arbitrage (ts : String) (prices : List (String × Option ℚ)) : List Opp :=
  find_arbitrage_gen START_AMOUNT FEE_RATE SLIPPAGE MIN_PROFIT TOKEN0_decimals ts prices

/-- Result of the `__main__` block: either the poll loop is entered, or
the process terminates with the given exit status. -/
inductive StartupResult where
  | enterLoop : StartupResult
  | exitWith : ℕ → StartupResult
  deriving DecidableEq, Repr

/-- `__main__` block: `if web3.is_connected(): main_loop(...) else: print(...)`.
On a failed probe the script prints the error message and falls off the
end of the module, terminating with the interpreter's default exit
status `0`. -/
def startup (connected : Bool) : StartupResult :=
  if connected then StartupResult.enterLoop else StartupResult.exitWith 0

/-- The logging state of `main_loop`: the global accumulator `df_log`
and the contents of `arbitrage_log.csv` (`none` before the first
write). -/
structure LoopState where
  df_log : List Opp
  file : Option (List Opp)
  deriving DecidableEq, Repr

/-- Lines 184-191 of `main_loop`: `if opportunities:` then
`df_log = pd.concat([df_log, pd.DataFrame(opportunities)], ...)` and
`df_log.to_csv("arbitrage_log.csv", index=False)` (the CSV is rewritten
with the full accumulated frame). -/
def log_step (s : LoopState) (opportunities : List Opp) : LoopState :=
  if opportunities.isEmpty then s
  else
    let df := s.df_log ++ opportunities
    { df_log := df, file := some df }

/-- Relation between the accumulator and the CSV that `main_loop`
maintains: before the first write the file is absent and the
accumulator empty; afterwards the file holds exactly the accumulator. -/
def LogInv (s : LoopState) : Prop :=
  (s.file = none ∧ s.df_log = []) ∨ s.file = some s.df_log

/-- Modelled from the spec (§4.2 step 2): the spec's formula
`amountBase = (startAmount * (1 - feeRate) / buyPrice) * (1 - slippageRate)`. -/
def spec_amountBase (startAmount feeRate slippageRate buyPrice : ℚ) : ℚ :=
  (startAmount * (1 - feeRate) / buyPrice) * (1 - slippageRate)

/-- Modelled from the spec (§4.2 step 3): the spec's formula
`finalAmount = (amountBase * sellPrice * (1 - feeRate)) * (1 - slippageRate)`. -/
def spec_finalAmount (startAmount feeRate slippageRate buyPrice sellPrice : ℚ) : ℚ :=
  (spec_amountBase startAmount feeRate slippageRate buyPrice * sellPrice * (1 - feeRate))
    * (1 - slippageRate)

/-- Price mapping of end-to-end scenario 1 (§8 of the spec). -/
def scenario1Prices : List (String × Option ℚ) :=
  [("A", some 1800), ("B", some 1805), ("C", some 1790)]

/-- The finder's output on scenario 1's parameters:
`startAmount = 100·10^6`, `feeRate = 0.003`, `slippageRate = 0.001`,
`minProfit = 1·10^6`. -/
def scenario1Result : List Opp :=
  find_arbitrage_gen (100 * 10 ^ 6) (3 / 1000) (1 / 1000) (10 ^ 6) 6 "t" scenario1Prices

/-- Helper: a missing price on the buy side short-circuits the pair. -/
theorem pairOpp_left_unavailable (c1 c2 c3 c4 : ℚ) (d0 : ℕ) (ts : String)
    (prices : List (String × Option ℚ)) (i j : ℕ) (dex : String)
    (h : prices[i]? = some (dex, none)) :
    pairOpp c1 c2 c3 c4 d0 ts prices i j = none := by
  rcases hj : prices[j]? with _ | ⟨d, _ | p⟩ <;> simp [pairOpp, h, hj]

/-- Helper: a missing price on the sell side short-circuits the pair. -/
theorem pairOpp_right_unavailable (c1 c2 c3 c4 : ℚ) (d0 : ℕ) (ts : String)
    (prices : List (String × Option ℚ)) (i j : ℕ) (dex : String)
    (h : prices[j]? = some (dex, none)) :
    pairOpp c1 c2 c3 c4 d0 ts prices i j = none := by
  rcases hi : prices[i]? with _ | ⟨d, _ | p⟩ <;> simp [pairOpp, h, hi]

/-- Helper: membership in the finder's output, unfolded to the loop body. -/
theorem mem_find_arbitrage_gen (c1 c2 c3 c4 : ℚ) (d0 : ℕ) (ts : String)
    (prices : List (String × Option ℚ)) (opp : Opp) :
    opp ∈ find_arbitrage_gen c1 c2 c3 c4 d0 ts prices ↔
      ∃ i < prices.length, ∃ j < prices.length,
        pairOpp c1 c2 c3 c4 d0 ts prices i j = some opp := by
  simp [find_arbitrage_gen, List.mem_flatMap, List.mem_filterMap, List.mem_range]

/-- C1: for every ordered pair passing the gates (both prices available,
distinct venues, buyPrice < sellPrice), the raw profit computed by
`find_arbitrage` equals `finalAmount - startAmount`, where
`amountBase = (startAmount * (1 - feeRate) / buyPrice) * (1 - slippageRate)`
and `finalAmount = (amountBase * sellPrice * (1 - feeRate)) * (1 - slippageRate)`:
the fee and slippage haircuts are applied multiplicatively on each leg
in that order. -/
theorem C1_profit_formula (startAmount feeRate slippageRate buyPrice sellPrice : ℚ)
    (hgate : buyPrice < sellPrice) :
    rawProfit startAmount feeRate slippageRate buyPrice sellPrice =
      spec_finalAmount startAmount feeRate slippageRate buyPrice sellPrice - startAmount := by
  simp [rawProfit, spec_finalAmount, spec_amountBase]

/-- Witness for C1 at startAmount 1, fee 0, slippage 0, prices 2 < 3. -/
theorem C1_profit_formula_witness :
    rawProfit 1 0 0 2 3 = spec_finalAmount 1 0 0 2 3 - 1 :=
  C1_profit_formula 1 0 0 2 3 (by norm_num)

/-- C2: for every venue whose quote call succeeds with strictly positive
`amountOut`, the recorded price is
`(amountIn / amountOut) * 10^(quoteDecimals - baseDecimals)` with
`amountIn = START_AMOUNT`. -/
theorem C2_price_normalization (quotes : List (String × Option ℕ)) (i : ℕ) (dex : String)
    (out : ℕ) (hq : quotes[i]? = some (dex, some out)) (hpos : 0 < out) :
    (fetch_prices quotes)[i]? =
      some (dex, some ((START_AMOUNT / (out : ℚ)) *
        10 ^ (TOKEN1_decimals - TOKEN0_decimals))) := by
  simp [fetch_prices, List.getElem?_map, hq, Nat.pos_iff_ne_zero.mp hpos]

/-- Witness for C2 at a single venue returning amountOut 5. -/
theorem C2_price_normalization_witness :
    (fetch_prices [("Uniswap", some 5)])[0]? =
      some ("Uniswap", some ((START_AMOUNT / (5 : ℚ)) *
        10 ^ (TOKEN1_decimals - TOKEN0_decimals))) :=
  C2_price_normalization [("Uniswap", some 5)] 0 "Uniswap" 5 rfl (by norm_num)

/-- C3: for an accepted ordered pair (distinct indices, both prices
available, buyPrice < sellPrice), an Opportunity is produced if and only
if the raw profit strictly exceeds `MIN_PROFIT` (so profit exactly equal
to the threshold is never emitted, and any strictly larger profit is);
the stored profit field is the raw profit divided by
`10 ^ TOKEN0_decimals` (the decimals of the asset whose scaling defines
`START_AMOUNT`); and the finder's output consists exactly of the records
so produced over all index pairs. -/
theorem C3_threshold_iff (ts : String) (prices : List (String × Option ℚ)) (i j : ℕ)
    (buy_dex sell_dex : String) (bp sp : ℚ)
    (hij : i ≠ j)
    (hi : prices[i]? = some (buy_dex, some bp))
    (hj : prices[j]? = some (sell_dex, some sp))
    (hlt : bp < sp) :
    ((pairOpp START_AMOUNT FEE_RATE SLIPPAGE MIN_PROFIT TOKEN0_decimals ts prices i j).isSome
        ↔ MIN_PROFIT < rawProfit START_AMOUNT FEE_RATE SLIPPAGE bp sp)
    ∧ (∀ opp, pairOpp START_AMOUNT FEE_RATE SLIPPAGE MIN_PROFIT TOKEN0_decimals ts prices i j
          = some opp →
        opp.profit = rawProfit START_AMOUNT FEE_RATE SLIPPAGE bp sp / 10 ^ TOKEN0_decimals)
    ∧ (∀ opp, opp ∈ find_arbitrage ts prices ↔
        ∃ a < prices.length, ∃ b < prices.length,
          pairOpp START_AMOUNT FEE_RATE SLIPPAGE MIN_PROFIT TOKEN0_decimals ts prices a b
            = some opp) := by
  refine ⟨?_, ?_, ?_⟩
  · by_cases hth : MIN_PROFIT < rawProfit START_AMOUNT FEE_RATE SLIPPAGE bp sp <;>
      simp [pairOpp, hij, hi, hj, hlt, hth]
  · intro opp hopp
    by_cases hth : MIN_PROFIT < rawProfit START_AMOUNT FEE_RATE SLIPPAGE bp sp <;>
      simp [pairOpp, hij, hi, hj, hlt, hth] at hopp
    rw [← hopp]
  · intro opp
    exact mem_find_arbitrage_gen START_AMOUNT FEE_RATE SLIPPAGE MIN_PROFIT TOKEN0_decimals
      ts prices opp

/-- Witness for C3: prices 10 < 20 on two venues, indices 0 and 1. -/
theorem C3_threshold_iff_witness :
    (pairOpp START_AMOUNT FEE_RATE SLIPPAGE MIN_PROFIT TOKEN0_decimals "t"
        [("X", some 10), ("Y", some 20)] 0 1).isSome
      ↔ MIN_PROFIT < rawProfit START_AMOUNT FEE_RATE SLIPPAGE 10 20 :=
  (C3_threshold_iff "t" [("X", some 10), ("Y", some 20)] 0 1 "X" "Y" 10 20
    (by norm_num) rfl rfl (by norm_num)).1

/-- C4: an ordered pair with buyPrice ≥ sellPrice never produces an
opportunity; when the two prices are equal neither direction does; and
the two gates `bp < sp` and `sp < bp` cannot hold at once, so at most
one direction of an unordered pair can pass the gate. -/
theorem C4_no_gate_violation (ts : String) (prices : List (String × Option ℚ)) (i j : ℕ)
    (buy_dex sell_dex : String) (bp sp : ℚ)
    (hi : prices[i]? = some (buy_dex, some bp))
    (hj : prices[j]? = some (sell_dex, some sp)) :
    (sp ≤ bp →
      pairOpp START_AMOUNT FEE_RATE SLIPPAGE MIN_PROFIT TOKEN0_decimals ts prices i j = none)
    ∧ (bp = sp →
      pairOpp START_AMOUNT FEE_RATE SLIPPAGE MIN_PROFIT TOKEN0_decimals ts prices i j = none ∧
      pairOpp START_AMOUNT FEE_RATE SLIPPAGE MIN_PROFIT TOKEN0_decimals ts prices j i = none)
    ∧ ¬(bp < sp ∧ sp < bp) := by
  refine ⟨fun hle => ?_, fun heq => ⟨?_, ?_⟩, fun ⟨h1, h2⟩ => absurd (h1.trans h2) (lt_irrefl bp)⟩
  · simp [pairOpp, hi, hj, not_lt.mpr hle]
  · simp [pairOpp, hi, hj, heq]
  · simp [pairOpp, hi, hj, heq]

/-- Witness for C4: two venues with the equal price 5. -/
theorem C4_no_gate_violation_witness :
    pairOpp START_AMOUNT FEE_RATE SLIPPAGE MIN_PROFIT TOKEN0_decimals "t"
        [("X", some 5), ("Y", some 5)] 0 1 = none ∧
    pairOpp START_AMOUNT FEE_RATE SLIPPAGE MIN_PROFIT TOKEN0_decimals "t"
        [("X", some 5), ("Y", some 5)] 1 0 = none :=
  (C4_no_gate_violation "t" [("X", some 5), ("Y", some 5)] 0 1 "X" "Y" 5 5 rfl rfl).2.1 rfl

/-- C5: a venue whose price is unavailable is excluded from every
candidate pair (on either side) before any arithmetic, and when every
venue's price is unavailable `find_arbitrage` returns the empty list. -/
theorem C5_unavailable_excluded (ts : String) (prices : List (String × Option ℚ)) :
    (∀ i dex, prices[i]? = some (dex, none) →
      ∀ j, pairOpp START_AMOUNT FEE_RATE SLIPPAGE MIN_PROFIT TOKEN0_decimals ts prices i j
            = none ∧
          pairOpp START_AMOUNT FEE_RATE SLIPPAGE MIN_PROFIT TOKEN0_decimals ts prices j i
            = none)
    ∧ ((∀ p ∈ prices, p.2 = none) → find_arbitrage ts prices = []) := by
  constructor
  · intro i dex h j
    exact ⟨pairOpp_left_unavailable _ _ _ _ _ _ _ _ _ _ h,
           pairOpp_right_unavailable _ _ _ _ _ _ _ _ _ _ h⟩
  · intro hall
    rw [List.eq_nil_iff_forall_not_mem]
    intro opp hopp
    rw [find_arbitrage, mem_find_arbitrage_gen] at hopp
    obtain ⟨a, ha, b, hb, hab⟩ := hopp
    have hp : prices[a]? = some prices[a] := List.getElem?_eq_getElem ha
    have hmem : prices[a] ∈ prices := List.getElem_mem ha
    have hnone : (prices[a]).2 = none := hall _ hmem
    have hp' : prices[a]? = some ((prices[a]).1, none) := by
      rw [hp]
      exact congrArg some (by rw [← hnone])
    rw [pairOpp_left_unavailable _ _ _ _ _ _ _ _ _ _ hp'] at hab
    exact Option.noConfusion hab

/-- Witness for C5: two venues, both unavailable. -/
theorem C5_unavailable_excluded_witness :
    find_arbitrage "t" [("Uniswap", none), ("Quickswap", none)] = [] :=
  (C5_unavailable_excluded "t" [("Uniswap", none), ("Quickswap", none)]).2 (by simp)

/-- C6: for a pair with nonnegative start amount and nonnegative buy
price, the computed raw profit is monotone (non-decreasing) in the sell
price, all other inputs held fixed. -/
theorem C6_profit_monotone_sell (startAmount feeRate slippageRate bp sp sp' : ℚ)
    (hstart : 0 ≤ startAmount) (hbp : 0 ≤ bp) (hsp : sp ≤ sp') :
    rawProfit startAmount feeRate slippageRate bp sp ≤
      rawProfit startAmount feeRate slippageRate bp sp' := by
  have key : rawProfit startAmount feeRate slippageRate bp sp' -
      rawProfit startAmount feeRate slippageRate bp sp =
      (startAmount * (1 - feeRate) ^ 2 * (1 - slippageRate) ^ 2 / bp) * (sp' - sp) := by
    simp only [rawProfit]
    ring
  have hK : 0 ≤ startAmount * (1 - feeRate) ^ 2 * (1 - slippageRate) ^ 2 / bp :=
    div_nonneg (mul_nonneg (mul_nonneg hstart (sq_nonneg _)) (sq_nonneg _)) hbp
  linarith [key, mul_nonneg hK (sub_nonneg.mpr hsp)]

/-- Witness for C6 with start 1, rates 0, buy price 1, sell prices 2 ≤ 3. -/
theorem C6_profit_monotone_sell_witness :
    rawProfit 1 0 0 1 2 ≤ rawProfit 1 0 0 1 3 :=
  C6_profit_monotone_sell 1 0 0 1 2 3 (by norm_num) (by norm_num) (by norm_num)

/-- C7 counterexample: on scenario 1's exact parameters the finder
emits no opportunity at all — in particular neither (buy C, sell A) nor
(buy C, sell B) is emitted, contrary to the claim. -/
theorem C7_counterexample : scenario1Result = [] := by
  norm_num [scenario1Result, find_arbitrage_gen, scenario1Prices, pairOpp, rawProfit,
    List.range_succ]

/-- C7 (amended): on scenario 1's parameters the finder emits no
opportunities: the (buy C, sell A) direction has strictly negative raw
profit (the round-trip fee/slippage haircuts outweigh the 1790→1800
spread), and the (buy C, sell B) direction has positive raw profit that
is still below the minProfit threshold of 10^6. -/
theorem C7_scenario1_empty :
    scenario1Result = []
    ∧ rawProfit (100 * 10 ^ 6) (3 / 1000) (1 / 1000) 1790 1800 < 0
    ∧ 0 < rawProfit (100 * 10 ^ 6) (3 / 1000) (1 / 1000) 1790 1805
    ∧ rawProfit (100 * 10 ^ 6) (3 / 1000) (1 / 1000) 1790 1805 < 10 ^ 6 := by
  refine ⟨?_, by norm_num [rawProfit], by norm_num [rawProfit], by norm_num [rawProfit]⟩
  norm_num [scenario1Result, find_arbitrage_gen, scenario1Prices, pairOpp, rawProfit,
    List.range_succ]

/-- C8 counterexample: when the connectivity probe fails the script
does not enter the loop, but it terminates with exit status 0, not a
non-zero status. -/
theorem C8_counterexample :
    startup false ≠ StartupResult.enterLoop ∧ startup false = StartupResult.exitWith 0 := by
  constructor
  · intro h
    exact StartupResult.noConfusion h
  · rfl

/-- C8 (amended): if the startup connectivity probe fails, the process
reports the error and terminates without entering the poll loop, but
with exit status 0 (the script simply falls off the end of the module);
only on a successful probe is the poll loop entered. -/
theorem C8_startup_no_loop :
    startup false = StartupResult.exitWith 0
    ∧ (∀ c, startup false = StartupResult.exitWith c → c = 0)
    ∧ startup true = StartupResult.enterLoop := by
  refine ⟨rfl, ?_, rfl⟩
  intro c h
  cases h
  rfl

/-- C9: each logging step preserves the accumulator/file relation; on a
cycle with at least one opportunity the file afterwards holds exactly
the previously persisted rows followed by the new rows (nothing is
dropped or rewritten differently), and on a cycle with no opportunity
nothing is written. -/
theorem C9_log_append_only (s : LoopState) (opportunities : List Opp) (hinv : LogInv s) :
    LogInv (log_step s opportunities)
    ∧ (opportunities ≠ [] →
        (log_step s opportunities).file = some (s.file.getD [] ++ opportunities)
        ∧ (log_step s opportunities).df_log = s.df_log ++ opportunities)
    ∧ (opportunities = [] → log_step s opportunities = s) := by
  rcases opportunities with _ | ⟨o, os⟩
  · exact ⟨by simpa [log_step] using hinv, fun h => absurd rfl h, fun _ => by simp [log_step]⟩
  · refine ⟨Or.inr rfl, fun _ => ⟨?_, ?_⟩, fun h => List.noConfusion h⟩
    · rcases hinv with ⟨hf, hd⟩ | hf
      · simp [log_step, hf, hd]
      · simp [log_step, hf]
    · simp [log_step]

/-- Witness for C9: first write of a single opportunity row into an
empty log state. -/
theorem C9_log_append_only_witness :
    LogInv (log_step { df_log := [], file := none }
      [{ timestamp := "t", buy_on := "a", sell_on := "b",
         buy_price := 1, sell_price := 2, profit := 3 }]) :=
  (C9_log_append_only { df_log := [], file := none }
    [{ timestamp := "t", buy_on := "a", sell_on := "b",
       buy_price := 1, sell_price := 2, profit := 3 }] (Or.inl ⟨rfl, rfl⟩)).1

/-- C10: every price recorded by `fetch_prices` is strictly positive; a
successful quote whose amountOut is exactly zero is recorded as
unavailable, not as price zero; and for any pair of recorded prices the
buy-side divisor is strictly positive and the intermediate base amount
`(START_AMOUNT * (1 - FEE_RATE)) / bp * (1 - SLIPPAGE)` is strictly
positive. -/
theorem C10_prices_positive (quotes : List (String × Option ℕ)) :
    (∀ (i : ℕ) (dex : String) (p : ℚ),
        (fetch_prices quotes)[i]? = some (dex, some p) → 0 < p)
    ∧ (∀ (i : ℕ) (dex : String), quotes[i]? = some (dex, some 0) →
        (fetch_prices quotes)[i]? = some (dex, none))
    ∧ (∀ (i j : ℕ) (buy_dex sell_dex : String) (bp sp : ℚ),
        (fetch_prices quotes)[i]? = some (buy_dex, some bp) →
        (fetch_prices quotes)[j]? = some (sell_dex, some sp) →
        0 < bp ∧ 0 < (START_AMOUNT * (1 - FEE_RATE)) / bp * (1 - SLIPPAGE)) := by
  have hpos : ∀ (i : ℕ) (dex : String) (p : ℚ),
      (fetch_prices quotes)[i]? = some (dex, some p) → 0 < p := by
    intro i dex p h
    simp only [fetch_prices, List.getElem?_map] at h
    rcases hq : quotes[i]? with _ | ⟨d, o⟩
    · rw [hq] at h
      simp at h
    · rw [hq] at h
      rcases o with _ | out
      · simp at h
      · by_cases h0 : out = 0
        · simp [h0] at h
        · simp [h0] at h
          have hout : (0 : ℚ) < (out : ℚ) := by
            exact_mod_cast Nat.pos_of_ne_zero h0
          have hstart : (0 : ℚ) < START_AMOUNT := by norm_num [START_AMOUNT, TOKEN0_decimals]
          rw [← h.2]
          positivity
  refine ⟨hpos, ?_, ?_⟩
  · intro i dex h
    simp [fetch_prices, List.getElem?_map, h]
  · intro i j buy_dex sell_dex bp sp hi hj
    have hbp : 0 < bp := hpos i buy_dex bp hi
    refine ⟨hbp, ?_⟩
    have hstart : (0 : ℚ) < START_AMOUNT := by norm_num [START_AMOUNT, TOKEN0_decimals]
    have hfee : (0 : ℚ) < 1 - FEE_RATE := by norm_num [FEE_RATE]
    have hslip : (0 : ℚ) < 1 - SLIPPAGE := by norm_num [SLIPPAGE]
    positivity

/-- Witness for C10: one venue with amountOut 0 is recorded unavailable. -/
theorem C10_prices_positive_witness :
    (fetch_prices [("Uniswap", some 0)])[0]? = some ("Uniswap", none) :=
  (C10_prices_positive [("Uniswap", some 0)]).2.1 0 "Uniswap" rfl

end PolygonArb
